import Mathlib

/-!
Verification development for the CMD-validator repository.

The Python source (src/WordMatch.py, src/CDMmodel.py, src/ErrorLog.py,
src/Validation.py) is shallowly embedded below.  Python strings are modelled
as `List Char`, Python floats as `ℚ` (all scores are exact rationals of the
form `1 - d / m`), Python exceptions as an `Except` result, and the shared
`ErrorLog` as the returned list of diagnostics in emission order.

Python `set` pools: the code stores its "unmatched solution" pools in
`set(...)` objects whose iteration order CPython does not specify (the
elements are model objects hashed by memory address).  Each pool-consuming
function below therefore takes the pool as an explicit `List`, standing for
one possible iteration order of the set; `validate` instantiates every pool
with the underlying construction-order list, one of the admissible orders.
Removal from a CPython set never moves the remaining elements, so logical
removal that keeps the relative order of the survivors (`List.erase` /
rebuilding the scanned prefix) is the faithful model of `set.remove`.
-/

/-- Python `str`, modelled as a list of characters. -/
abbrev Str := List Char

/-- Embedding of Python `str.upper()` (names in the models are ASCII). -/
def upper (s : Str) : Str := s.map Char.toUpper

/-- Classic unit-cost Levenshtein distance (head recursion); used as the
mathematical specification that the row-wise dynamic program of
`WordMatch.levenshtein_distance` is proved to compute. -/
def lev : Str → Str → Nat
  | [], ys => ys.length
  | x :: xs, [] => (x :: xs).length
  | x :: xs, y :: ys =>
      min (min (lev xs (y :: ys) + 1) (lev (x :: xs) ys + 1))
          (lev xs ys + (if x = y then 0 else 1))
termination_by a b => a.length + b.length
decreasing_by all_goals simp_arith

/-- Inner loop of `WordMatch.levenshtein_distance`: builds the tail of
`current_row` from `previous_row`.  `left` is the last value already placed
in `current_row` (`current_row[j]`), `p0 :: p1 :: ps` the unconsumed part of
`previous_row` (`previous_row[j]`, `previous_row[j+1]`, ...), the last
argument the unconsumed part of `s2`.  Each step appends
`min(insertions, deletions, substitutions)` exactly as in the source. -/
def rowGo (c1 : Char) : Nat → List Nat → Str → List Nat
  | _, _, [] => []
  | _, [], _ :: _ => []
  | _, [_], _ :: _ => []
  | left, p0 :: p1 :: ps, c2 :: cs =>
      let v := min (min (p1 + 1) (left + 1)) (p0 + (if c1 = c2 then 0 else 1))
      v :: rowGo c1 v (p1 :: ps) cs

/-- The body of `WordMatch.levenshtein_distance` after the initial swap:
`previous_row = range(len(s2)+1)`, one `rowGo` pass per character of `s1`
(`current_row` starts with `i + 1`), answer `previous_row[-1]`. -/
def pyLevCore (s1 s2 : Str) : Nat :=
  if s2.length = 0 then s1.length
  else
    ((s1.enum).foldl (fun prev ic => (ic.1 + 1) :: rowGo ic.2 (ic.1 + 1) prev s2)
      (List.range (s2.length + 1))).getLastD 0

/-- `WordMatch.levenshtein_distance`.  The source first recurses once with the
arguments swapped when `len(s1) < len(s2)`; that single tail call is unfolded
here. -/
def pyLev (s1 s2 : Str) : Nat :=
  if s1.length < s2.length then pyLevCore s2 s1 else pyLevCore s1 s2

/-- `WordMatch.similarity_score`: `1 - lev_distance / max_len`, `1.0` when
both strings are empty. -/
def similarity_score (s1 s2 : Str) : ℚ :=
  let lev_distance := pyLev s1 s2
  let max_len := max s1.length s2.length
  if max_len = 0 then 1 else 1 - (lev_distance : ℚ) / (max_len : ℚ)

/-- `WordMatch.compare_word`: score every candidate (case-insensitively),
return `(src_w, 0.0)` on an empty candidate list, otherwise the head of the
stable descending sort of the scored table, i.e. the first candidate in
input order attaining the maximal score (Python's `sorted` is stable, so the
fold below, which replaces the running best only on a strictly greater
score, returns exactly that element). -/
def compare_word (src_w : Str) (sol_words : List Str) : Str × ℚ :=
  let results_table := sol_words.map (fun w => (w, similarity_score (upper src_w) (upper w)))
  match results_table with
  | [] => (src_w, 0)
  | r :: rs => rs.foldl (fun best x => if x.2 > best.2 then x else best) r

/-! ### The row-wise dynamic program computes Levenshtein distance -/

theorem lev_nil_left (ys : Str) : lev [] ys = ys.length := by
  rw [lev]

theorem lev_nil_right (xs : Str) : lev xs [] = xs.length := by
  cases xs <;> rw [lev]

theorem lev_cons_cons (x y : Char) (xs ys : Str) :
    lev (x :: xs) (y :: ys) =
      min (min (lev xs (y :: ys) + 1) (lev (x :: xs) ys + 1))
        (lev xs ys + (if x = y then 0 else 1)) := by
  rw [lev]

/-- The row of prefix distances: entry `j` is the distance between the
(reversed) processed prefix `ra` of `s1` and the length-`j` prefix of `s2`
(whose reversal is accumulated in front of `brev`). -/
def rowSpecAux (ra : Str) (brev : Str) : Str → List Nat
  | [] => [lev ra brev]
  | c :: cs => lev ra brev :: rowSpecAux ra (c :: brev) cs

theorem rowGo_spec (c1 : Char) (ra : Str) :
    ∀ (cs brev : Str),
      lev (c1 :: ra) brev ::
        rowGo c1 (lev (c1 :: ra) brev) (rowSpecAux ra brev cs) cs =
      rowSpecAux (c1 :: ra) brev cs := by
  intro cs
  induction cs with
  | nil => intro brev; rfl
  | cons c2 cs' ih =>
    intro brev
    cases cs' with
    | nil =>
      simp only [rowSpecAux, rowGo, lev_cons_cons]
    | cons c3 cs'' =>
      have h := ih (c2 :: brev)
      simp only [rowSpecAux, rowGo] at h ⊢
      rw [← lev_cons_cons, h]

theorem rowSpecAux_nil_left (cs : Str) :
    ∀ brev : Str, rowSpecAux [] brev cs = List.range' brev.length (cs.length + 1) := by
  induction cs with
  | nil => intro brev; simp [rowSpecAux, lev_nil_left, List.range']
  | cons c cs ih =>
    intro brev
    simp only [rowSpecAux, lev_nil_left, List.length_cons, List.range']
    rw [ih (c :: brev)]
    rfl

theorem rowSpecAux_getLastD (ra : Str) :
    ∀ (rest brev : Str) (d : Nat),
      (rowSpecAux ra brev rest).getLastD d = lev ra (rest.reverse ++ brev) := by
  intro rest
  induction rest with
  | nil => intro brev d; simp [rowSpecAux]
  | cons c cs ih =>
    intro brev d
    simp only [rowSpecAux, List.getLastD_cons]
    rw [ih (c :: brev)]
    simp

theorem foldl_rows (s2 : Str) :
    ∀ (rest ra : Str),
      (List.enumFrom ra.length rest).foldl
          (fun prev ic => (ic.1 + 1) :: rowGo ic.2 (ic.1 + 1) prev s2)
          (rowSpecAux ra [] s2)
        = rowSpecAux (rest.reverse ++ ra) [] s2 := by
  intro rest
  induction rest with
  | nil => intro ra; rfl
  | cons c1 rest' ih =>
    intro ra
    have hrow : (ra.length + 1) :: rowGo c1 (ra.length + 1) (rowSpecAux ra [] s2) s2
        = rowSpecAux (c1 :: ra) [] s2 := by
      have hlen : ra.length + 1 = lev (c1 :: ra) [] := by
        rw [lev_nil_right]; rfl
      rw [hlen]
      exact rowGo_spec c1 ra s2 []
    show (List.enumFrom (ra.length + 1) rest').foldl _
        ((ra.length + 1) :: rowGo c1 (ra.length + 1) (rowSpecAux ra [] s2) s2) = _
    rw [hrow]
    have := ih (c1 :: ra)
    simp only [List.length_cons] at this
    rw [this]
    simp

theorem pyLevCore_eq (s1 s2 : Str) : pyLevCore s1 s2 = lev s1.reverse s2.reverse := by
  unfold pyLevCore
  split
  · next h =>
    rw [List.length_eq_zero] at h
    subst h
    simp [lev_nil_right]
  · have hrange : List.range (s2.length + 1) = rowSpecAux [] [] s2 := by
      rw [rowSpecAux_nil_left s2 [], List.range_eq_range']
      rfl
    rw [hrange]
    have henum : s1.enum = List.enumFrom (([] : Str).length) s1 := rfl
    rw [henum, foldl_rows s2 s1 [], rowSpecAux_getLastD]
    simp

theorem lev_comm : ∀ (a b : Str), lev a b = lev b a
  | [], [] => rfl
  | [], _ :: _ => by rw [lev_nil_left, lev_nil_right]
  | _ :: _, [] => by rw [lev_nil_left, lev_nil_right]
  | x :: xs, y :: ys => by
    have h1 := lev_comm xs (y :: ys)
    have h2 := lev_comm (x :: xs) ys
    have h3 := lev_comm xs ys
    rw [lev_cons_cons, lev_cons_cons, h1, h2, h3]
    have hc : (if x = y then 0 else 1) = (if y = x then 0 else 1) := by
      simp [eq_comm]
    rw [hc]
    omega
termination_by a b => a.length + b.length
decreasing_by all_goals simp_arith

theorem lev_self : ∀ a : Str, lev a a = 0
  | [] => by rw [lev_nil_left]; rfl
  | x :: xs => by
    rw [lev_cons_cons, lev_self xs]
    simp

theorem lev_le_max : ∀ a b : Str, lev a b ≤ max a.length b.length
  | [], b => by rw [lev_nil_left]; omega
  | x :: xs, [] => by rw [lev_nil_right]; omega
  | x :: xs, y :: ys => by
    have h3 := lev_le_max xs ys
    rw [lev_cons_cons]
    have : lev xs ys + (if x = y then 0 else 1) ≤ max xs.length ys.length + 1 := by
      split <;> omega
    simp only [List.length_cons]
    omega

theorem pyLev_eq (s1 s2 : Str) : pyLev s1 s2 = lev s1.reverse s2.reverse := by
  unfold pyLev
  split
  · rw [pyLevCore_eq, lev_comm]
  · rw [pyLevCore_eq]

/-! ### Properties of the scorer -/

theorem pyLev_le_max (a b : Str) : pyLev a b ≤ max a.length b.length := by
  rw [pyLev_eq]
  have h := lev_le_max a.reverse b.reverse
  simpa using h

theorem pyLev_self (a : Str) : pyLev a a = 0 := by
  rw [pyLev_eq, lev_self]

theorem pyLev_comm (a b : Str) : pyLev a b = pyLev b a := by
  rw [pyLev_eq, pyLev_eq, lev_comm]

theorem similarity_score_nonneg (a b : Str) : 0 ≤ similarity_score a b := by
  simp only [similarity_score]
  split
  · norm_num
  · next h =>
    have hm : 0 < max a.length b.length := Nat.pos_of_ne_zero h
    have hmq : (0 : ℚ) < ((max a.length b.length : ℕ) : ℚ) := Nat.cast_pos.mpr hm
    have hd : (pyLev a b : ℚ) ≤ ((max a.length b.length : ℕ) : ℚ) :=
      Nat.cast_le.mpr (pyLev_le_max a b)
    have h1 : (pyLev a b : ℚ) / ((max a.length b.length : ℕ) : ℚ) ≤ 1 := by
      rw [div_le_one hmq]
      exact hd
    linarith

theorem similarity_score_le_one (a b : Str) : similarity_score a b ≤ 1 := by
  simp only [similarity_score]
  split
  · norm_num
  · next h =>
    have hm : 0 < max a.length b.length := Nat.pos_of_ne_zero h
    have hmq : (0 : ℚ) < ((max a.length b.length : ℕ) : ℚ) := Nat.cast_pos.mpr hm
    have h0 : (0 : ℚ) ≤ (pyLev a b : ℚ) / ((max a.length b.length : ℕ) : ℚ) :=
      div_nonneg (Nat.cast_nonneg _) (le_of_lt hmq)
    linarith

theorem similarity_score_self (a : Str) : similarity_score a a = 1 := by
  simp only [similarity_score]
  split
  · rfl
  · rw [pyLev_self]
    norm_num

theorem similarity_score_comm (a b : Str) : similarity_score a b = similarity_score b a := by
  simp only [similarity_score]
  rw [pyLev_comm, Nat.max_comm]

theorem compare_word_single (src w : Str) :
    compare_word src [w] = (w, similarity_score (upper src) (upper w)) := rfl

theorem foldl_best_stays :
    ∀ (l : List (Str × ℚ)) (b : Str × ℚ), (∀ x ∈ l, x.2 ≤ b.2) →
      l.foldl (fun best x => if x.2 > best.2 then x else best) b = b := by
  intro l
  induction l with
  | nil => intro b _; rfl
  | cons x l ih =>
    intro b h
    have hx : ¬ (x.2 > b.2) := not_lt.mpr (h x (List.mem_cons_self x l))
    show l.foldl _ (if x.2 > b.2 then x else b) = b
    rw [if_neg hx]
    exact ih b (fun y hy => h y (List.mem_cons_of_mem x hy))

theorem compare_word_first_max (src w : Str) (ws : List Str)
    (h : ∀ u ∈ ws, similarity_score (upper src) (upper u) ≤ similarity_score (upper src) (upper w)) :
    compare_word src (w :: ws) = (w, similarity_score (upper src) (upper w)) := by
  unfold compare_word
  simp only [List.map_cons]
  apply foldl_best_stays
  intro x hx
  rw [List.mem_map] at hx
  obtain ⟨u, hu, rfl⟩ := hx
  exact h u hu

/-- C9: the Name Similarity Scorer's contract: scores are the normalized
Levenshtein formula and lie in `[0,1]`; self-similarity is `1`; similarity is
symmetric; the two concrete empty-string cases; case-insensitive scoring;
empty candidate list behaviour; and the stable first-in-input-order
tie-break of `compare_word`. -/
theorem wordmatch_scorer_contract :
    (∀ a b : Str, 0 ≤ similarity_score a b ∧ similarity_score a b ≤ 1)
    ∧ (∀ a b : Str, max a.length b.length ≠ 0 →
        similarity_score a b = 1 - (pyLev a b : ℚ) / ((max a.length b.length : ℕ) : ℚ))
    ∧ (∀ a : Str, similarity_score a a = 1)
    ∧ (∀ a b : Str, similarity_score a b = similarity_score b a)
    ∧ similarity_score [] [] = 1
    ∧ similarity_score [] ['A', 'B', 'C'] = 0
    ∧ compare_word ['a', 'b', 'c'] [['A', 'B', 'C']] = (['A', 'B', 'C'], 1)
    ∧ (∀ src : Str, compare_word src [] = (src, 0))
    ∧ (∀ (src w : Str) (ws : List Str),
        (∀ u ∈ ws, similarity_score (upper src) (upper u) ≤ similarity_score (upper src) (upper w)) →
        compare_word src (w :: ws) = (w, similarity_score (upper src) (upper w))) := by
  refine ⟨fun a b => ⟨similarity_score_nonneg a b, similarity_score_le_one a b⟩,
    fun a b h => ?_, similarity_score_self, similarity_score_comm,
    similarity_score_self [], ?_, ?_, fun src => rfl,
    compare_word_first_max⟩
  · simp only [similarity_score]
    rw [if_neg h]
  · have hp : pyLev [] ['A', 'B', 'C'] = 3 := by
      rw [pyLev_eq]
      simp [lev_nil_left]
    simp only [similarity_score, hp]
    norm_num
  · rw [compare_word_single]
    have hu : upper ['a', 'b', 'c'] = ['A', 'B', 'C'] := by decide
    have hu2 : upper ['A', 'B', 'C'] = ['A', 'B', 'C'] := by decide
    rw [hu, hu2, similarity_score_self]

/-- Witness for C9 at concrete inputs, discharging the tie-break hypothesis. -/
theorem wordmatch_scorer_contract_witness :
    (0 ≤ similarity_score ['x'] ['y', 'z'] ∧ similarity_score ['x'] ['y', 'z'] ≤ 1)
    ∧ compare_word ['a'] [] = (['a'], 0)
    ∧ compare_word ['a', 'b'] [['b', 'a'], ['b', 'a']]
        = (['b', 'a'], similarity_score (upper ['a', 'b']) (upper ['b', 'a'])) := by
  refine ⟨wordmatch_scorer_contract.1 ['x'] ['y', 'z'],
    wordmatch_scorer_contract.2.2.2.2.2.2.2.1 ['a'],
    wordmatch_scorer_contract.2.2.2.2.2.2.2.2 ['a', 'b'] ['b', 'a'] [['b', 'a']] ?_⟩
  intro u hu
  rw [List.mem_singleton] at hu
  subst hu
  exact le_refl _

/-! ### The schema graph data model (src/CDMmodel.py)

Only the fields that `Validation` reads are modelled; `code`, `length`,
`precision`, `domain`, the `puml` renderers and the entity back-references
are never consulted by the reconciliation engine. -/

/-- `CDMmodel.Attribute` (engine-relevant fields). -/
structure Attribute where
  id : Str
  name : Str
  mandatory : Bool
  datatype : Option Str
deriving DecidableEq

/-- `CDMmodel.Identifier`. -/
structure Identifier where
  id : Str
  name : Str
  identifier_attributes : List Attribute
  is_primary : Bool
deriving DecidableEq

/-- `CDMmodel.Entity` (engine-relevant fields). -/
structure Entity where
  id : Str
  name : Str
  is_child : Bool
  attributes : List Attribute
  identifiers : List Identifier
deriving DecidableEq

/-- `CDMmodel.Relationship`; the two endpoint references are modelled by the
(linked) entity values, of which only `name` is read. -/
structure Relationship where
  id : Str
  name : Str
  is_dependent_e1 : Bool
  is_dependent_e2 : Bool
  entity1 : Entity
  entity2 : Entity
  cardinality_1to2 : Str
  cardinality_2to1 : Str
deriving DecidableEq

/-- `CDMmodel.Inheritance`. -/
structure Inheritance where
  id : Str
  name : Str
  mutually_exclusive : Bool
  complete : Bool
  parent : Entity
  children : List Entity
deriving DecidableEq

/-- `CDMmodel.Association` (engine-relevant fields). -/
structure Association where
  id : Str
  name : Str
  attributes : List Attribute
deriving DecidableEq

/-- `CDMmodel.AssociationLink`. -/
structure AssociationLink where
  id : Str
  association : Association
  entity : Entity
  cardinality : Str
deriving DecidableEq

/-- `CDMmodel.Model` (engine-relevant fields; `domains` and `packages` are
never read by `Validation`). -/
structure Model where
  id : Str
  name : Str
  entities : List Entity
  relationships : List Relationship
  inheritances : List Inheritance
  associations : List Association
  association_links : List AssociationLink
deriving DecidableEq

/-- `Model.get_table_name_by_id`: name of the first entity with the given
id, `None` when there is none. -/
def Model.get_table_name_by_id (m : Model) (table_id : Str) : Option Str :=
  (m.entities.find? (fun e => decide (e.id = table_id))).map (fun e => e.name)

/-! ### Diagnostics (src/ErrorLog.py)

`ErrorLog.add_error` appends a record built from the five arguments of one
call site; each constructor below stands for one `add_error` call site in
`Validation.py` and carries exactly the values interpolated there. -/

/-- One `Error` record per `add_error` call site of `Validation.py`. -/
inductive Diag where
  /-- Entity pass, "Matching entity ... not found in solution model or
  already matched" (unreachable: `compare_word` returns a pool name). -/
  | matchingEntityNotFound (id name matchName : Str)
  /-- Entity pass, "Entity ... not found in solution model". -/
  | entityNotFound (id name : Str)
  /-- Entity pass, "Unmatched entity in solution model: ...". -/
  | unmatchedEntity (name : Str)
  /-- `validate_entity`, "Entity child property mismatch". -/
  | entityChildMismatch (id name : Str)
  /-- `validate_attributes`, "Attribute ... datatype mismatch". -/
  | attrDatatypeMismatch (tableId attrName : Str)
  /-- `validate_attributes`, "Attribute ... mandatory property mismatch". -/
  | attrMandatoryMismatch (tableId attrName : Str)
  /-- `validate_attributes`, "Matching attribute ... not found in solution
  model or already matched" (unreachable, as for entities). -/
  | matchingAttrNotFound (tableId matchName : Str)
  /-- `validate_attributes`, "Attribute ... not found in the solution model". -/
  | attrNotFound (tableId attrName : Str)
  /-- `validate_attributes`, "Unmatched attribute in entity ...: ..."
  (logged with type tag "Entity" in the source). -/
  | unmatchedAttr (tableId : Str) (tableName : Option Str) (attrName : Str)
  /-- `validate_identifier_attributes`, "Identifier attributes mismatch in
  solution model". -/
  | identifierAttrsMismatch (srcIdentifierId attrName : Str)
  /-- `validate_identifiers`, "... identifier ... primary property mismatch". -/
  | identifierPrimaryMismatch (tableId : Str) (tableName : Option Str)
      (identifierId identifierName : Str)
  /-- `validate_identifiers`, "Unmatched identifier in entity ...: ...". -/
  | unmatchedIdentifier (tableId : Str) (tableName : Option Str) (identifierName : Str)
  /-- `validate_relationships`, "Relationship ... cardinality mismatch". -/
  | relCardinalityMismatch (id name : Str)
  /-- `validate_relationships`, "Relationship ... dependent property mismatch". -/
  | relDependentMismatch (id name : Str)
  /-- `validate_relationships`, "Relationship ... not found in solution model". -/
  | relNotFound (id name : Str)
  /-- `validate_relationships`, "Unmatched relationship in solution model: ...". -/
  | unmatchedRelationship (name : Str)
  /-- `validate_inheritance`, "Inheritance ... children mismatch". -/
  | inhChildrenMismatch (id name : Str)
  /-- `validate_inheritance`, "Inheritance ... parent mismatch". -/
  | inhParentMismatch (id name : Str)
  /-- `validate_inheritance`, "Inheritance ... mutually exclusive property
  mismatch". -/
  | inhMutuallyExclusiveMismatch (id name : Str)
  /-- `validate_inheritance`, "Inheritance ... complete property mismatch". -/
  | inhCompleteMismatch (id name : Str)
  /-- `validate_inheritances`, "Inheritance ... not found in solution model". -/
  | inhNotFound (id name : Str)
  /-- `validate_inheritances`, "Unmatched inheritance in solution model: ...". -/
  | unmatchedInheritance (name : Str)
  /-- `validate_association`, "Association attributes mismatch". -/
  | assocAttributesMismatch (id name : Str)
  /-- `validate_associations`, "Association ... not found in solution model". -/
  | assocNotFound (id name : Str)
  /-- `validate_associations`, "Unmatched association in solution model: ...". -/
  | unmatchedAssociation (name : Str)
  /-- `validate_association_links`, "Association link ... cardinality mismatch". -/
  | linkCardinalityMismatch (id assocName entityName : Str)
  /-- `validate_association_links`, "Association link ... not found in
  solution model". -/
  | linkNotFound (id assocName entityName : Str)
  /-- `validate_association_links`, "Unmatched association link in solution
  model: ...". -/
  | unmatchedLink (assocName entityName : Str)
deriving DecidableEq

/-- Python exceptions that the engine can actually raise. -/
inductive PyErr where
  /-- `[... for ...][0]` on an empty list (`validate_entity`). -/
  | indexError
  /-- `min([])` in `validate_identifier_attributes`. -/
  | valueError
  /-- reading the never-assigned `err_info` in `validate_inheritances`. -/
  | unboundLocalError
  /-- `set.remove` of an absent element (`validate_identifiers`, unreachable). -/
  | keyError
  /-- "Set changed size during iteration": `validate_association_links`
  removes from the set it is iterating and then continues the iteration. -/
  | runtimeError
deriving DecidableEq

/-- `Validation.name_match_threshold`. -/
def name_match_threshold : ℚ := 0.85

/-! ### The reconciliation engine (src/Validation.py)

Each `..._core` function is the body of the corresponding `Validation`
method with the unmatched-solution `set` passed in as an explicit list (its
iteration order) and the shared `ErrorLog` returned as the diagnostic list.
The nested `for ... else` searches become the `...Scan` helpers, which
return the diagnostics logged during the scan, the pool after the logical
removal (survivors in unchanged relative order), and the `break` flag. -/

/-- Phase 1 of `validate_identifier_attributes` (lines 167-177): for each
source member attribute, collect its best score within EVERY candidate
identifier's attribute-name list and fail — logging "Identifier attributes
mismatch" — when the minimum over the candidates is below the threshold.
Python's `min([])` raises `ValueError` when the candidate pool is empty. -/
def viatPhase1 (srcId : Str) (solLists : List (List Str)) :
    List Attribute → Except PyErr (Option Diag)
  | [] => .ok none
  | a :: rest =>
    let scores := solLists.map (fun sl => (compare_word a.name sl).2)
    match scores with
    | [] => .error .valueError
    | s :: ss =>
      if ss.foldl min s < name_match_threshold then
        .ok (some (.identifierAttrsMismatch srcId a.name))
      else viatPhase1 srcId solLists rest

/-- Phase 2 of `validate_identifier_attributes` (lines 180-185): first
candidate, in pool iteration order, in which every source member attribute
scores at least the threshold. -/
def viatPhase2 (src : Identifier) : List Identifier → Option Identifier
  | [] => none
  | i :: rest =>
    if src.identifier_attributes.all (fun a =>
        decide (name_match_threshold ≤
          (compare_word a.name (i.identifier_attributes.map (fun x => x.name))).2))
    then some i else viatPhase2 src rest

/-- `Validation.validate_identifier_attributes`: result is (diagnostics
logged, matching identifier or `None`, match flag). -/
def validate_identifier_attributes (src : Identifier) (pool : List Identifier) :
    Except PyErr (List Diag × Option Identifier × Bool) := do
  let solLists := pool.map (fun i => i.identifier_attributes.map (fun a => a.name))
  match ← viatPhase1 src.id solLists src.identifier_attributes with
  | some d => .ok ([d], none, false)
  | none =>
    match viatPhase2 src pool with
    | some i => .ok ([], some i, true)
    | none => .ok ([], none, false)

/-- `Validation.validate_identifiers` after fetching the identifier lists:
on a match, remove it from the pool and compare `is_primary` — a difference
logs one diagnostic and `break`s out of the source-identifier loop; the
unmatched-source branch is commented out in the source, so a flagless
iteration logs nothing; finally every leftover pool identifier is reported.
`tname` is `src_model.get_table_name_by_id(src_table_id)`, interpolated
into the messages. -/
def validate_identifiers_core (tid : Str) (tname : Option Str) :
    List Identifier → List Identifier → Except PyErr (List Diag)
  | [], pool => .ok (pool.map (fun i => .unmatchedIdentifier tid tname i.name))
  | s :: rest, pool => do
    let (ds, mi, flag) ← validate_identifier_attributes s pool
    if flag then
      match mi with
      | some m =>
        if m.is_primary ≠ s.is_primary then
          .ok (ds ++ [Diag.identifierPrimaryMismatch tid tname s.id s.name]
              ++ (pool.erase m).map (fun i => Diag.unmatchedIdentifier tid tname i.name))
        else do
          let drest ← validate_identifiers_core tid tname rest (pool.erase m)
          .ok (ds ++ drest)
      | none => .error .keyError
    else do
      let drest ← validate_identifiers_core tid tname rest pool
      .ok (ds ++ drest)

/-- `Validation.validate_attributes` after fetching the attribute lists:
name-match over the unmatched pool; on a match compare datatype and
mandatory independently; leftovers reported (the source tags them
"Entity" and interpolates the table name `tname`). -/
def validate_attributes_core (tid : Str) (tname : Option Str) :
    List Attribute → List Attribute → List Diag
  | [], pool => pool.map (fun a => .unmatchedAttr tid tname a.name)
  | a :: rest, pool =>
    let (matchName, score) := compare_word a.name (pool.map (fun x => x.name))
    if score > name_match_threshold then
      match pool.find? (fun x => decide (x.name = matchName)) with
      | some m =>
        ((if a.datatype ≠ m.datatype then [Diag.attrDatatypeMismatch tid a.name] else [])
          ++ (if a.mandatory ≠ m.mandatory then [Diag.attrMandatoryMismatch tid a.name] else []))
          ++ validate_attributes_core tid tname rest (pool.erase m)
      | none =>
        Diag.matchingAttrNotFound tid matchName :: validate_attributes_core tid tname rest pool
    else
      Diag.attrNotFound tid a.name :: validate_attributes_core tid tname rest pool

/-- `Validation.validate_entity`: look the two entities up by id (an absent
id would raise `IndexError` from `[...][0]`), compare `is_child`, then run
the attribute and identifier sub-passes scoped to the pair. -/
def validate_entity (src_model sol_model : Model) (src_entity_id sol_entity_id : Str) :
    Except PyErr (List Diag) := do
  match src_model.entities.find? (fun e => decide (e.id = src_entity_id)),
        sol_model.entities.find? (fun e => decide (e.id = sol_entity_id)) with
  | some se, some soe =>
    let d1 : List Diag := if se.is_child ≠ soe.is_child
      then [.entityChildMismatch se.id se.name] else []
    let d2 := validate_attributes_core src_entity_id
      (src_model.get_table_name_by_id src_entity_id) se.attributes soe.attributes
    let d3 ← validate_identifiers_core src_entity_id
      (src_model.get_table_name_by_id src_entity_id) se.identifiers soe.identifiers
    .ok (d1 ++ d2 ++ d3)
  | _, _ => .error .indexError

/-- `Validation.validate_entities` with the pool (the
`unmatched_solution_entities` set) passed explicitly: best name over the
pool via `compare_word`, match above the threshold, `next(...)` to locate
the pool object of that name, removal, nested `validate_entity`, and the
trailing unmatched-solution report in pool iteration order. -/
def validate_entities_core (src_model sol_model : Model) :
    List Entity → List Entity → Except PyErr (List Diag)
  | [], pool => .ok (pool.map (fun e => .unmatchedEntity e.name))
  | s :: rest, pool => do
    let (matchName, score) := compare_word s.name (pool.map (fun e => e.name))
    if score > name_match_threshold then
      match pool.find? (fun e => decide (e.name = matchName)) with
      | some m => do
        let d ← validate_entity src_model sol_model s.id m.id
        let drest ← validate_entities_core src_model sol_model rest (pool.erase m)
        .ok (d ++ drest)
      | none => do
        let drest ← validate_entities_core src_model sol_model rest pool
        .ok (Diag.matchingEntityNotFound s.id s.name matchName :: drest)
    else do
      let drest ← validate_entities_core src_model sol_model rest pool
      .ok (Diag.entityNotFound s.id s.name :: drest)

/-- `Validation.validate_relationship_entities`: entity1 against entity1,
entity2 against entity2, name against name, all strictly above the
threshold.  The source returns `True` or falls through returning `None`
(falsy); modelled as `Bool`. -/
def validate_relationship_entities (src_relationship solution_relationship : Relationship) : Bool :=
  let score := (compare_word src_relationship.entity1.name [solution_relationship.entity1.name]).2
  let score2 := (compare_word src_relationship.entity2.name [solution_relationship.entity2.name]).2
  let name_score := (compare_word src_relationship.name [solution_relationship.name]).2
  decide (score > name_match_threshold) && decide (score2 > name_match_threshold)
    && decide (name_score > name_match_threshold)

/-- Inner `for sol_relationship in unmatched_sol_relationships` loop of
`validate_relationships`: on the first corresponding pool element, remove
it, log the cardinality diagnostic (one for either direction) and then the
dependency diagnostic (both branches `break`). -/
def relScan (s : Relationship) : List Relationship → (List Diag × List Relationship × Bool)
  | [] => ([], [], false)
  | p :: ps =>
    if validate_relationship_entities s p then
      ((if s.cardinality_1to2 ≠ p.cardinality_1to2 ∨ s.cardinality_2to1 ≠ p.cardinality_2to1
          then [Diag.relCardinalityMismatch s.id s.name] else [])
        ++ (if s.is_dependent_e1 ≠ p.is_dependent_e1 ∨ s.is_dependent_e2 ≠ p.is_dependent_e2
          then [Diag.relDependentMismatch s.id s.name] else []),
       ps, true)
    else
      let (d, ps', f) := relScan s ps
      (d, p :: ps', f)

/-- `Validation.validate_relationships` with the pool passed explicitly. -/
def validate_relationships_core : List Relationship → List Relationship → List Diag
  | [], pool => pool.map (fun r => .unmatchedRelationship r.name)
  | s :: rest, pool =>
    let (d, pool', found) := relScan s pool
    (d ++ (if found then [] else [Diag.relNotFound s.id s.name]))
      ++ validate_relationships_core rest pool'

/-- Best-of search of `validate_inheritance` for one source child over the
solution children (`best_child_score` starts at `0`; the matched word that
the source also tracks is never read afterwards). -/
def bestChildScore (child : Entity) (solution_children : List Entity) : ℚ :=
  solution_children.foldl
    (fun best sc =>
      let curr := (compare_word child.name [sc.name]).2
      if curr > best then curr else best) 0

/-- `Validation.validate_inheritance`: children are checked before the
parent; a failing check returns the `error_info` list (here the
ready-made diagnostic) with flag `False` and logs nothing; on a qualifying
match a `mutually_exclusive` difference logs one diagnostic and RETURNS,
so `complete` is then never compared. -/
def validate_inheritance (s p : Inheritance) : List Diag × Option Diag × Bool :=
  let parent_score := (compare_word s.parent.name [p.parent.name]).2
  let children_scores := s.children.map (fun c => bestChildScore c p.children)
  if children_scores.any (fun x => decide (x < name_match_threshold)) then
    ([], some (.inhChildrenMismatch s.id s.name), false)
  else if parent_score < name_match_threshold then
    ([], some (.inhParentMismatch s.id s.name), false)
  else if s.mutually_exclusive ≠ p.mutually_exclusive then
    ([.inhMutuallyExclusiveMismatch s.id s.name], none, true)
  else if s.complete ≠ p.complete then
    ([.inhCompleteMismatch s.id s.name], none, true)
  else ([], none, true)

/-- Inner pool loop of `validate_inheritances`.  The Python local
`err_info` survives across loop iterations (and across source
inheritances); `none` models the still-unbound variable, `some v` the
variable bound to the last returned `error_info` (`v = none` for Python
`None`). -/
def inhScan (s : Inheritance) : Option (Option Diag) → List Inheritance →
    (Option (Option Diag) × List Inheritance × Bool × List Diag)
  | errSt, [] => (errSt, [], false, [])
  | _, p :: ps =>
    let (d, einfo, flag) := validate_inheritance s p
    if flag then (some einfo, ps, true, d)
    else
      let (e', ps', f, d') := inhScan s (some einfo) ps
      (e', p :: ps', f, d ++ d')

/-- `Validation.validate_inheritances` with the pool and the state of the
`err_info` local passed explicitly.  When no pool candidate matches, the
`for ... else` reads `err_info`: never assigned → `UnboundLocalError`;
assigned a list → that reason is logged; assigned `None` (by an earlier
breaking iteration) → "not found in solution model". -/
def validate_inheritances_core : Option (Option Diag) → List Inheritance → List Inheritance →
    Except PyErr (List Diag)
  | _, [], pool => .ok (pool.map (fun i => .unmatchedInheritance i.name))
  | errSt, s :: rest, pool =>
    let (e', pool', found, d) := inhScan s errSt pool
    if found then do
      let drest ← validate_inheritances_core e' rest pool'
      .ok (d ++ drest)
    else
      match e' with
      | none => .error .unboundLocalError
      | some (some info) => do
        let drest ← validate_inheritances_core e' rest pool'
        .ok (d ++ [info] ++ drest)
      | some none => do
        let drest ← validate_inheritances_core e' rest pool'
        .ok (d ++ [Diag.inhNotFound s.id s.name] ++ drest)

/-- Python truthiness of the `True / False / None` results of
`validate_association`. -/
def truthy : Option Bool → Bool
  | some b => b
  | none => false

/-- `Validation.validate_association`: `True` when both attribute lists are
empty; otherwise score every (source, solution) attribute pair, log
"Association attributes mismatch" and return `False` when ALL pairs score
below the threshold, and fall through returning `None` otherwise. -/
def validate_association (s p : Association) : List Diag × Option Bool :=
  if s.attributes.length = p.attributes.length ∧ s.attributes.length = 0 then
    ([], some true)
  else
    let attribute_scores := s.attributes.flatMap (fun sa =>
      p.attributes.map (fun pa => ((compare_word sa.name [pa.name]).2, sa.name)))
    if attribute_scores.all (fun x => decide (x.1 < name_match_threshold)) then
      ([.assocAttributesMismatch s.id s.name], some false)
    else
      ([], none)

/-- Inner pool loop of `validate_associations`: candidates above the name
threshold have `validate_association` run (whose diagnostics are logged
even when the scan then moves on); only a truthy result removes the
candidate and `break`s. -/
def assocScan (s : Association) : List Association → (List Diag × List Association × Bool)
  | [] => ([], [], false)
  | p :: ps =>
    let name_score := (compare_word s.name [p.name]).2
    if name_score > name_match_threshold then
      let (d, r) := validate_association s p
      if truthy r then (d, ps, true)
      else
        let (d2, ps', f) := assocScan s ps
        (d ++ d2, p :: ps', f)
    else
      let (d2, ps', f) := assocScan s ps
      (d2, p :: ps', f)

/-- `Validation.validate_associations` with the pool passed explicitly. -/
def validate_associations_core : List Association → List Association → List Diag
  | [], pool => pool.map (fun a => .unmatchedAssociation a.name)
  | s :: rest, pool =>
    let (d, pool', found) := assocScan s pool
    (d ++ (if found then [] else [Diag.assocNotFound s.id s.name]))
      ++ validate_associations_core rest pool'

/-- `Validation.validate_association_link`: owning-association name and
owning-entity name both strictly above the threshold. -/
def validate_association_link (s p : AssociationLink) : Bool :=
  let score := (compare_word s.association.name [p.association.name]).2
  let score2 := (compare_word s.entity.name [p.entity.name]).2
  decide (score > name_match_threshold) && decide (score2 > name_match_threshold)

/-- Inner pool loop of `validate_association_links`.  On a match the
element is removed from the set; equal cardinalities `break`; on differing
cardinalities the source logs a cardinality diagnostic but does NOT
`break`, so the `for` loop asks the iterator of the just-mutated set for
its next element and CPython raises `RuntimeError` ("Set changed size
during iteration"), abandoning the run (the model returns the bare error;
diagnostics already in the shared log are not part of the result). -/
def linkScan (s : AssociationLink) : List AssociationLink →
    Except PyErr (List AssociationLink × Bool)
  | [] => .ok ([], false)
  | p :: ps =>
    if validate_association_link s p then
      if s.cardinality = p.cardinality then .ok (ps, true)
      else .error .runtimeError
    else do
      let (ps', f) ← linkScan s ps
      .ok (p :: ps', f)

/-- `Validation.validate_association_links` with the pool passed
explicitly. -/
def validate_association_links_core : List AssociationLink → List AssociationLink →
    Except PyErr (List Diag)
  | [], pool => .ok (pool.map (fun l => .unmatchedLink l.association.name l.entity.name))
  | s :: rest, pool => do
    let (pool', found) ← linkScan s pool
    let d : List Diag := if found then []
      else [Diag.linkNotFound s.id s.association.name s.entity.name]
    let drest ← validate_association_links_core rest pool'
    .ok (d ++ drest)

/-- `Validation.validate`: the five category passes in source order against
one shared log; an exception in a pass propagates out of `validate`.  Every
`set(...)` pool is instantiated here with construction order, one of its
admissible iteration orders. -/
def validate (src_model solution_model : Model) : Except PyErr (List Diag) := do
  let d1 ← validate_entities_core src_model solution_model
    src_model.entities solution_model.entities
  let d2 := validate_relationships_core src_model.relationships solution_model.relationships
  let d3 ← validate_inheritances_core none src_model.inheritances solution_model.inheritances
  let d4 := validate_associations_core src_model.associations solution_model.associations
  let d5 ← validate_association_links_core
    src_model.association_links solution_model.association_links
  .ok (d1 ++ d2 ++ d3 ++ d4 ++ d5)

/-! ### Evaluation helpers for concrete runs

`ℚ` arithmetic does not reduce in the kernel, so concrete scores are
computed through the following lemmas instead of `decide`. -/

theorem except_bind_ok {α β : Type} (a : α) (f : α → Except PyErr β) :
    (do let x ← (Except.ok a : Except PyErr α); f x) = f a := rfl

theorem except_bind_error {α β : Type} (e : PyErr) (f : α → Except PyErr β) :
    (do let x ← (Except.error e : Except PyErr α); f x) = Except.error e := rfl

theorem similarity_score_eq_of (a b : Str) (d m : ℕ) (hd : pyLev a b = d)
    (hm : max a.length b.length = m) (h0 : m ≠ 0) :
    similarity_score a b = 1 - (d : ℚ) / (m : ℚ) := by
  simp only [similarity_score]
  rw [hd, hm, if_neg h0]

theorem sim_single_mismatch : similarity_score ['A'] ['B'] = 0 := by
  rw [similarity_score_eq_of ['A'] ['B'] 1 1 (by decide) (by decide) (by decide)]
  norm_num

theorem compare_word_self_single (w : Str) : (compare_word w [w]).2 = 1 := by
  rw [compare_word_single]
  exact similarity_score_self _

/-! ### Concrete fixtures -/

/-- An association attribute named "x". -/
def attrX : Attribute := ⟨['a', '1'], ['x'], false, none⟩

/-- An association named "A" with the single attribute "x". -/
def assocA : Association := ⟨['s', '1'], ['A'], [attrX]⟩

/-- A model whose only content is the association "A". -/
def assocOnlyModel : Model := ⟨['m'], ['M'], [], [], [], [assocA], []⟩

/-- Parent entity "P". -/
def entityP : Entity := ⟨['e', 'p'], ['P'], false, [], []⟩

/-- Child entity "C". -/
def entityC : Entity := ⟨['e', 'c'], ['C'], true, [], []⟩

/-- An inheritance "I" with parent "P" and child "C". -/
def inhI : Inheritance := ⟨['i', '1'], ['I'], false, false, entityP, [entityC]⟩

/-- A model whose only content is the inheritance "I". -/
def inhOnlyModel : Model := ⟨['m', '1'], ['M'], [], [], [inhI], [], []⟩

/-- A model with no content at all. -/
def emptyModel : Model := ⟨['m', '2'], ['N'], [], [], [], [], []⟩

/-- Identifier member attribute named "a". -/
def identAttrA : Attribute := ⟨['q', 'a'], ['a'], false, none⟩

/-- Identifier member attribute named "b". -/
def identAttrB : Attribute := ⟨['q', 'b'], ['b'], false, none⟩

/-- Source identifier over the member attribute "a". -/
def srcIdent : Identifier := ⟨['d', 's'], ['S'], [identAttrA], true⟩

/-- Solution identifier over the member attribute "a". -/
def solIdent1 : Identifier := ⟨['d', '1'], ['J'], [identAttrA], true⟩

/-- Solution identifier over the member attribute "b". -/
def solIdent2 : Identifier := ⟨['d', '2'], ['K'], [identAttrB], true⟩

/-- Entities "G" and "H", used to permute an unmatched pool. -/
def entityG : Entity := ⟨['z', '1'], ['G'], false, [], []⟩

/-- See `entityG`. -/
def entityH : Entity := ⟨['z', '2'], ['H'], false, [], []⟩

/-- Entity "E" participating in an association link. -/
def entityE : Entity := ⟨['e', '1'], ['E'], false, [], []⟩

/-- Attribute-less association "B" for the link fixtures. -/
def assocB : Association := ⟨['s', '2'], ['B'], []⟩

/-- Source link "B"-"E" with cardinality "0,1". -/
def linkSrc : AssociationLink := ⟨['l', '1'], assocB, entityE, ['0', ',', '1']⟩

/-- Solution link "B"-"E" with cardinality "1,1". -/
def linkSol : AssociationLink := ⟨['l', '2'], assocB, entityE, ['1', ',', '1']⟩

/-- C2: the engine does raise.  With one source inheritance and a solution
model containing no inheritances, the inner pool loop never runs, the
`for ... else` branch reads the never-assigned local `err_info`, and
`validate` dies with `UnboundLocalError` instead of logging a diagnostic;
likewise `validate_identifier_attributes` dies with `ValueError` from
`min([])` when the solution identifier pool is empty. -/
theorem validate_raises_on_empty_pools :
    validate inhOnlyModel emptyModel = .error .unboundLocalError
    ∧ validate_identifier_attributes srcIdent [] = .error .valueError := by
  constructor <;> rfl

/-- C3: the diagnostic sequence depends on the iteration order of the
`unmatched_solution_entities` set.  The two pool lists below are
permutations of one another — two admissible iteration orders of the same
set — yet the entity pass emits different diagnostic sequences, so the
hash-based pool does not behave as an order-preserving structure. -/
theorem entity_pass_depends_on_pool_order :
    List.Perm [entityH, entityG] [entityG, entityH]
    ∧ validate_entities_core emptyModel emptyModel [] [entityG, entityH]
        ≠ validate_entities_core emptyModel emptyModel [] [entityH, entityG] := by
  constructor
  · exact List.Perm.swap entityG entityH []
  · intro h
    simp only [validate_entities_core, entityG, entityH, List.map_cons, List.map_nil] at h
    exact absurd (congrArg (fun x => x) h) (by simp)

/-- Shared evaluation: the association pass run on the association "A"
(one attribute) against an identical copy of itself reports the source
association as not found and the solution association as unmatched. -/
theorem assoc_pass_self_eval :
    validate_associations_core [assocA] [assocA]
      = [Diag.assocNotFound ['s', '1'] ['A'], Diag.unmatchedAssociation ['A']] := by
  have hname := compare_word_self_single ['A']
  have hattr := compare_word_self_single ['x']
  norm_num [validate_associations_core, assocScan, validate_association, truthy,
    assocA, attrX, hname, hattr, name_match_threshold]

/-- C1: self-validation is not diagnostic-free.  Validating the model whose
only content is the association "A" (with one attribute) against an
identical copy of itself emits two diagnostics, because
`validate_association` never returns `True` for associations with
attributes.  All pools of this model have at most one element, so the set
iteration order is unique. -/
theorem self_validation_emits_diagnostics :
    validate assocOnlyModel assocOnlyModel
      = .ok [Diag.assocNotFound ['s', '1'] ['A'], Diag.unmatchedAssociation ['A']]
    ∧ validate assocOnlyModel assocOnlyModel ≠ .ok [] := by
  have hv : validate assocOnlyModel assocOnlyModel
      = .ok ([] ++ [] ++ [] ++ validate_associations_core [assocA] [assocA] ++ []) := rfl
  rw [hv, assoc_pass_self_eval]
  constructor
  · rfl
  · simp

/-- C4: `validate_association` on the association "A" against an identical
copy returns `None` — its only `return True` is the zero-attribute case, so
the caller treats the pair as unmatched and emits both the "not found" and
the "unmatched" diagnostics even though every attribute scores 1.0. -/
theorem association_match_never_accepts_attributes :
    validate_association assocA assocA = ([], none)
    ∧ truthy (validate_association assocA assocA).2 = false
    ∧ validate_associations_core [assocA] [assocA]
        = [Diag.assocNotFound ['s', '1'] ['A'], Diag.unmatchedAssociation ['A']] := by
  have hattr := compare_word_self_single ['x']
  have h1 : validate_association assocA assocA = ([], none) := by
    norm_num [validate_association, assocA, attrX, hattr, name_match_threshold]
  exact ⟨h1, by rw [h1]; rfl, assoc_pass_self_eval⟩

/-- C6: identifier correspondence is not per-candidate.  The source
identifier over attribute set {"a"} should match the first candidate
(attributes {"a"}) under the claimed rule, but phase 1 of
`validate_identifier_attributes` takes the minimum of the attribute's best
scores across ALL candidates — the second candidate {"b"} drags the
minimum to 0 — so the function logs "Identifier attributes mismatch" and
reports no match. -/
theorem identifier_match_rejected_by_other_candidate :
    validate_identifier_attributes srcIdent [solIdent1, solIdent2]
      = .ok ([Diag.identifierAttrsMismatch ['d', 's'] ['a']], none, false) := by
  have haa := compare_word_self_single ['a']
  have hab : (compare_word ['a'] [['b']]).2 = 0 := by
    rw [compare_word_single]
    have h1 : upper ['a'] = ['A'] := by decide
    have h2 : upper ['b'] = ['B'] := by decide
    rw [h1, h2, sim_single_mismatch]
  norm_num [validate_identifier_attributes, viatPhase1, viatPhase2, srcIdent,
    solIdent1, solIdent2, identAttrA, identAttrB, haa, hab, name_match_threshold,
    except_bind_ok, except_bind_error]

/-- C5: a matched association link with differing cardinality crashes the
pass.  The source logs the cardinality diagnostic but does not `break`, so
the iteration of the just-mutated set resumes and CPython raises
`RuntimeError` ("Set changed size during iteration") instead of counting
the match as found and stopping. -/
theorem link_cardinality_mismatch_raises :
    validate_association_links_core [linkSrc] [linkSol] = .error .runtimeError := by
  have hB := compare_word_self_single ['B']
  have hE := compare_word_self_single ['E']
  have hlink : validate_association_link linkSrc linkSol = true := by
    norm_num [validate_association_link, linkSrc, linkSol, assocB, entityE, hB, hE,
      name_match_threshold]
  have hcard : linkSrc.cardinality ≠ linkSol.cardinality := by decide
  simp [validate_association_links_core, linkScan, hlink, hcard,
    except_bind_ok, except_bind_error]

/-! ### Characterization of the inheritance pass -/

theorem compare_word_single_snd (a w : Str) :
    (compare_word a [w]).2 = similarity_score (upper a) (upper w) := by
  rw [compare_word_single]

theorem sim_singletons_zero (c d : Char) (h : pyLev [c] [d] = 1) :
    similarity_score [c] [d] = 0 := by
  rw [similarity_score_eq_of [c] [d] 1 1 h rfl (by decide)]
  norm_num

/-- The explicit case tree of `validate_inheritance`. -/
theorem validate_inheritance_cases (s p : Inheritance) :
    validate_inheritance s p =
      if (s.children.map (fun c => bestChildScore c p.children)).any
          (fun x => decide (x < name_match_threshold))
        then ([], some (Diag.inhChildrenMismatch s.id s.name), false)
      else if (compare_word s.parent.name [p.parent.name]).2 < name_match_threshold
        then ([], some (Diag.inhParentMismatch s.id s.name), false)
      else if s.mutually_exclusive ≠ p.mutually_exclusive
        then ([Diag.inhMutuallyExclusiveMismatch s.id s.name], none, true)
      else if s.complete ≠ p.complete then ([Diag.inhCompleteMismatch s.id s.name], none, true)
      else ([], none, true) := rfl

theorem bestChildScore_fold_ge_iff (c : Entity) (t : ℚ) :
    ∀ (l : List Entity) (b : ℚ),
      (t ≤ l.foldl (fun best sc =>
          let curr := (compare_word c.name [sc.name]).2
          if curr > best then curr else best) b) ↔
        (t ≤ b ∨ ∃ d ∈ l, t ≤ (compare_word c.name [d.name]).2) := by
  intro l
  induction l with
  | nil => intro b; simp
  | cons x l ih =>
    intro b
    show (t ≤ l.foldl _
        (let curr := (compare_word c.name [x.name]).2
         if curr > b then curr else b)) ↔ _
    rw [ih]
    constructor
    · rintro (h | ⟨d, hd, hdt⟩)
      · by_cases hc : (compare_word c.name [x.name]).2 > b
        · simp only [if_pos hc] at h
          exact Or.inr ⟨x, List.mem_cons_self x l, h⟩
        · simp only [if_neg hc] at h
          exact Or.inl h
      · exact Or.inr ⟨d, List.mem_cons_of_mem x hd, hdt⟩
    · rintro (h | ⟨d, hd, hdt⟩)
      · left
        by_cases hc : (compare_word c.name [x.name]).2 > b
        · simp only [if_pos hc]
          linarith
        · simp only [if_neg hc]
          exact h
      · rcases List.mem_cons.mp hd with rfl | hd'
        · left
          by_cases hc : (compare_word c.name [d.name]).2 > b
          · simp only [if_pos hc]
            exact hdt
          · simp only [if_neg hc]
            linarith [not_lt.mp hc]
        · exact Or.inr ⟨d, hd', hdt⟩

theorem bestChildScore_ge_iff (c : Entity) (l : List Entity) :
    name_match_threshold ≤ bestChildScore c l ↔
      ∃ d ∈ l, name_match_threshold ≤ similarity_score (upper c.name) (upper d.name) := by
  have ht : ¬ (name_match_threshold ≤ (0 : ℚ)) := by norm_num [name_match_threshold]
  unfold bestChildScore
  rw [bestChildScore_fold_ge_iff]
  simp only [compare_word_single_snd]
  exact or_iff_right ht

theorem childrenOK_iff (s p : Inheritance) :
    ((s.children.map (fun c => bestChildScore c p.children)).any
        (fun x => decide (x < name_match_threshold)) = false) ↔
      (∀ c ∈ s.children, ∃ d ∈ p.children,
        name_match_threshold ≤ similarity_score (upper c.name) (upper d.name)) := by
  rw [List.any_eq_false]
  constructor
  · intro h c hc
    have := h (bestChildScore c p.children) (List.mem_map_of_mem _ hc)
    rw [decide_eq_true_eq] at this
    exact (bestChildScore_ge_iff c p.children).mp (not_lt.mp this)
  · intro h x hx
    rw [List.mem_map] at hx
    obtain ⟨c, hc, rfl⟩ := hx
    rw [decide_eq_true_eq]
    exact not_lt.mpr ((bestChildScore_ge_iff c p.children).mpr (h c hc))

theorem validate_inheritance_flag_iff (s p : Inheritance) :
    (validate_inheritance s p).2.2 = true ↔
      (name_match_threshold ≤ similarity_score (upper s.parent.name) (upper p.parent.name)
        ∧ ∀ c ∈ s.children, ∃ d ∈ p.children,
            name_match_threshold ≤ similarity_score (upper c.name) (upper d.name)) := by
  rw [validate_inheritance_cases]
  by_cases h1 : (s.children.map (fun c => bestChildScore c p.children)).any
      (fun x => decide (x < name_match_threshold)) = true
  · rw [if_pos h1]
    refine iff_of_false (by simp) ?_
    rintro ⟨_, hc⟩
    have := (childrenOK_iff s p).mpr hc
    rw [this] at h1
    exact absurd h1 (by simp)
  · have h1f := (Bool.not_eq_true _).mp h1
    rw [if_neg h1]
    have hcOK := (childrenOK_iff s p).mp h1f
    by_cases h2 : (compare_word s.parent.name [p.parent.name]).2 < name_match_threshold
    · rw [if_pos h2]
      refine iff_of_false (by simp) ?_
      rintro ⟨hp, _⟩
      rw [compare_word_single_snd] at h2
      exact absurd hp (not_le.mpr h2)
    · rw [if_neg h2]
      have hp : name_match_threshold ≤
          similarity_score (upper s.parent.name) (upper p.parent.name) := by
        rw [← compare_word_single_snd]
        exact not_lt.mp h2
      refine iff_of_true ?_ ⟨hp, hcOK⟩
      by_cases h3 : s.mutually_exclusive ≠ p.mutually_exclusive
      · rw [if_pos h3]
      · rw [if_neg h3]
        by_cases h4 : s.complete ≠ p.complete
        · rw [if_pos h4]
        · rw [if_neg h4]

theorem validate_inheritance_false_shape (s p : Inheritance)
    (h : (validate_inheritance s p).2.2 = false) :
    (validate_inheritance s p).1 = [] ∧ ∃ i, (validate_inheritance s p).2.1 = some i := by
  rw [validate_inheritance_cases] at h ⊢
  by_cases h1 : (s.children.map (fun c => bestChildScore c p.children)).any
      (fun x => decide (x < name_match_threshold)) = true
  · rw [if_pos h1]
    exact ⟨rfl, _, rfl⟩
  · rw [if_neg h1] at h ⊢
    by_cases h2 : (compare_word s.parent.name [p.parent.name]).2 < name_match_threshold
    · rw [if_pos h2]
      exact ⟨rfl, _, rfl⟩
    · rw [if_neg h2] at h ⊢
      split at h
      · simp_all
      · split at h <;> simp_all

theorem inhScan_all_unmatched (s : Inheritance) :
    ∀ (pool : List Inheritance) (errSt : Option (Option Diag)) (h : pool ≠ []),
      (∀ p ∈ pool, (validate_inheritance s p).2.2 = false) →
      inhScan s errSt pool
        = (some ((validate_inheritance s (pool.getLast h)).2.1), pool, false, []) := by
  intro pool
  induction pool with
  | nil => intro errSt h _; exact absurd rfl h
  | cons p ps ih =>
    intro errSt h hall
    have hp := hall p (List.mem_cons_self p ps)
    obtain ⟨hd, i, hi⟩ := validate_inheritance_false_shape s p hp
    have hvp : validate_inheritance s p = ([], some i, false) := by
      calc validate_inheritance s p
          = ((validate_inheritance s p).1,
             (validate_inheritance s p).2.1, (validate_inheritance s p).2.2) := rfl
        _ = ([], some i, false) := by rw [hd, hi, hp]
    by_cases hps : ps = []
    · subst hps
      simp [inhScan, hvp, hi]
    · have ihh := ih (some (some i)) hps (fun q hq => hall q (List.mem_cons_of_mem p hq))
      simp only [inhScan, hvp]
      rw [ihh]
      rw [List.getLast_cons hps]
      simp

theorem validate_inheritances_last_reason (s : Inheritance) (pool : List Inheritance)
    (errSt : Option (Option Diag)) (h : pool ≠ [])
    (hall : ∀ p ∈ pool, (validate_inheritance s p).2.2 = false) :
    ∃ info, (validate_inheritance s (pool.getLast h)).2.1 = some info ∧
      validate_inheritances_core errSt [s] pool
        = .ok (info :: pool.map (fun i => Diag.unmatchedInheritance i.name)) := by
  obtain ⟨-, i, hi⟩ := validate_inheritance_false_shape s (pool.getLast h)
      (hall _ (List.getLast_mem h))
  refine ⟨i, hi, ?_⟩
  simp only [validate_inheritances_core]
  rw [inhScan_all_unmatched s pool errSt h hall, hi]
  simp [validate_inheritances_core, except_bind_ok]

/-! ### C7: fixtures at the exact threshold -/

/-- Twenty times 'A'. -/
def nameP20A : Str := List.replicate 20 'A'

/-- Seventeen times 'A' then "BBB": Levenshtein distance 3 from
`nameP20A`, similarity exactly `1 - 3/20 = 0.85`. -/
def nameP20B : Str := List.replicate 17 'A' ++ ['B', 'B', 'B']

/-- Parent entity carrying `nameP20A`. -/
def parent20A : Entity := ⟨['p', '1'], nameP20A, false, [], []⟩

/-- Parent entity carrying `nameP20B`. -/
def parent20B : Entity := ⟨['p', '2'], nameP20B, false, [], []⟩

/-- Source inheritance whose parent-name similarity to `inhBoundSol` is
exactly the threshold. -/
def inhBoundSrc : Inheritance := ⟨['b', '1'], ['X'], false, false, parent20A, [entityC]⟩

/-- See `inhBoundSrc`. -/
def inhBoundSol : Inheritance := ⟨['b', '2'], ['Y'], false, false, parent20B, [entityC]⟩

/-- Source inheritance differing from `inhFlagSol` in BOTH flags. -/
def inhFlagSrc : Inheritance := ⟨['f', '1'], ['Z'], true, true, entityP, [entityC]⟩

/-- See `inhFlagSrc`. -/
def inhFlagSol : Inheritance := ⟨['f', '2'], ['W'], false, false, entityP, [entityC]⟩

/-- Entity "Q", dissimilar to parent "P". -/
def entityQ : Entity := ⟨['e', 'q'], ['Q'], false, [], []⟩

/-- Solution inheritance with parent "Q": fails to correspond to `inhI`
(parent "P") with reason "parent mismatch". -/
def inhQ : Inheritance := ⟨['n', '1'], ['N'], false, false, entityQ, [entityC]⟩

set_option maxRecDepth 100000 in
theorem sim_nameP20 : similarity_score nameP20A nameP20B = name_match_threshold := by
  rw [similarity_score_eq_of nameP20A nameP20B 3 20 (by decide) (by decide) (by decide)]
  norm_num [name_match_threshold]

/-- Shared evaluation: `inhFlagSrc` vs `inhFlagSol` (names equal, both
flags different) qualifies and emits ONLY the mutually-exclusive
diagnostic: the source returns before comparing `complete`. -/
theorem validate_inheritance_flag_pair_eval :
    validate_inheritance inhFlagSrc inhFlagSol
      = ([Diag.inhMutuallyExclusiveMismatch ['f', '1'] ['Z']], none, true) := by
  have hC := compare_word_self_single ['C']
  have hP := compare_word_self_single ['P']
  norm_num [validate_inheritance_cases, bestChildScore, inhFlagSrc, inhFlagSol, entityP,
    entityC, hC, hP, name_match_threshold]

/-- Shared evaluation: `inhI` (parent "P") does not correspond to `inhQ`
(parent "Q"); the children check passes, the parent check fails. -/
theorem validate_inheritance_PQ_eval :
    validate_inheritance inhI inhQ
      = ([], some (Diag.inhParentMismatch ['i', '1'] ['I']), false) := by
  have hC := compare_word_self_single ['C']
  have hPQ : (compare_word ['P'] [['Q']]).2 = 0 := by
    rw [compare_word_single_snd]
    have e1 : upper (['P'] : Str) = ['P'] := by decide
    have e2 : upper (['Q'] : Str) = ['Q'] := by decide
    rw [e1, e2, sim_singletons_zero 'P' 'Q' (by decide)]
  norm_num [validate_inheritance_cases, bestChildScore, inhI, inhQ, entityP, entityQ,
    entityC, hC, hPQ, name_match_threshold]

/-- C7 counterexample: (i) a pair whose parent-name similarity is EXACTLY
0.85 — not strictly above — still corresponds (the source fails only on
`< threshold`); (ii) a qualifying pair differing in BOTH
`mutually_exclusive` and `complete` emits only the single
mutually-exclusive diagnostic, so the two flags are not compared
independently. -/
theorem inheritance_claim_counterexample :
    similarity_score (upper inhBoundSrc.parent.name) (upper inhBoundSol.parent.name)
        = name_match_threshold
    ∧ (validate_inheritance inhBoundSrc inhBoundSol).2.2 = true
    ∧ inhFlagSrc.mutually_exclusive ≠ inhFlagSol.mutually_exclusive
    ∧ inhFlagSrc.complete ≠ inhFlagSol.complete
    ∧ validate_inheritance inhFlagSrc inhFlagSol
        = ([Diag.inhMutuallyExclusiveMismatch ['f', '1'] ['Z']], none, true) := by
  have hu1 : upper nameP20A = nameP20A := by decide
  have hu2 : upper nameP20B = nameP20B := by decide
  have hsimu : similarity_score (upper nameP20A) (upper nameP20B) = name_match_threshold := by
    rw [hu1, hu2, sim_nameP20]
  refine ⟨hsimu, ?_, by decide, by decide, validate_inheritance_flag_pair_eval⟩
  rw [validate_inheritance_flag_iff]
  constructor
  · show name_match_threshold ≤ similarity_score (upper nameP20A) (upper nameP20B)
    rw [hsimu]
  · intro c hc
    rw [show inhBoundSrc.children = [entityC] from rfl, List.mem_singleton] at hc
    subst hc
    refine ⟨entityC, List.mem_singleton.mpr rfl, ?_⟩
    rw [similarity_score_self]
    norm_num [name_match_threshold]

/-- C7 amended: inheritance correspondence requires parent-name similarity
at least 0.85 AND, for every source child, some solution child scoring at
least 0.85 (independent best-of search per child); children are checked
before the parent (a children failure is the returned reason even when the
parent also fails); when no solution inheritance qualifies, the failure
reason emitted is that of the last attempted candidate; on a qualifying
match, `mutually_exclusive` is compared first and a difference emits one
diagnostic and ends the comparison (`complete` is then not checked);
otherwise a `complete` difference emits its own diagnostic. -/
theorem inheritance_pass_amended :
    (∀ s p : Inheritance, (validate_inheritance s p).2.2 = true ↔
        (name_match_threshold ≤ similarity_score (upper s.parent.name) (upper p.parent.name)
          ∧ ∀ c ∈ s.children, ∃ d ∈ p.children,
              name_match_threshold ≤ similarity_score (upper c.name) (upper d.name)))
    ∧ (∀ s p : Inheritance,
        (¬ ∀ c ∈ s.children, ∃ d ∈ p.children,
            name_match_threshold ≤ similarity_score (upper c.name) (upper d.name)) →
        validate_inheritance s p = ([], some (Diag.inhChildrenMismatch s.id s.name), false))
    ∧ (∀ s p : Inheritance, (validate_inheritance s p).2.2 = true →
        (validate_inheritance s p).1 =
          if s.mutually_exclusive ≠ p.mutually_exclusive
            then [Diag.inhMutuallyExclusiveMismatch s.id s.name]
          else if s.complete ≠ p.complete then [Diag.inhCompleteMismatch s.id s.name]
          else [])
    ∧ (∀ (s : Inheritance) (pool : List Inheritance) (errSt : Option (Option Diag))
        (h : pool ≠ []),
        (∀ p ∈ pool, (validate_inheritance s p).2.2 = false) →
        ∃ info, (validate_inheritance s (pool.getLast h)).2.1 = some info ∧
          validate_inheritances_core errSt [s] pool
            = .ok (info :: pool.map (fun i => Diag.unmatchedInheritance i.name))) := by
  refine ⟨validate_inheritance_flag_iff, ?_, ?_, validate_inheritances_last_reason⟩
  · intro s p hnc
    have hb : (s.children.map (fun c => bestChildScore c p.children)).any
        (fun x => decide (x < name_match_threshold)) = true := by
      by_contra hbf
      rw [Bool.not_eq_true] at hbf
      exact hnc ((childrenOK_iff s p).mp hbf)
    rw [validate_inheritance_cases, if_pos hb]
  · intro s p hflag
    rw [validate_inheritance_flag_iff] at hflag
    obtain ⟨hp, hc⟩ := hflag
    have hb := (childrenOK_iff s p).mpr hc
    have hp2 : ¬ ((compare_word s.parent.name [p.parent.name]).2 < name_match_threshold) := by
      rw [compare_word_single_snd]
      exact not_lt.mpr hp
    rw [validate_inheritance_cases, if_neg (by simp [hb]), if_neg hp2]
    by_cases h3 : s.mutually_exclusive ≠ p.mutually_exclusive
    · rw [if_pos h3, if_pos h3]
    · rw [if_neg h3, if_neg h3]
      by_cases h4 : s.complete ≠ p.complete
      · rw [if_pos h4, if_pos h4]
      · rw [if_neg h4, if_neg h4]

/-- Witness for C7 at concrete inputs: the qualifying both-flags-different
pair emits only the mutually-exclusive diagnostic, and a source inheritance
rejected by its single pool candidate has that candidate's parent-mismatch
reason emitted, followed by the unmatched-solution report. -/
theorem inheritance_pass_amended_witness :
    (validate_inheritance inhFlagSrc inhFlagSol).1
        = [Diag.inhMutuallyExclusiveMismatch ['f', '1'] ['Z']]
    ∧ validate_inheritances_core none [inhI] [inhQ]
        = .ok [Diag.inhParentMismatch ['i', '1'] ['I'], Diag.unmatchedInheritance ['N']] := by
  constructor
  · have hflag : (validate_inheritance inhFlagSrc inhFlagSol).2.2 = true := by
      rw [validate_inheritance_flag_pair_eval]
    have h := inheritance_pass_amended.2.2.1 inhFlagSrc inhFlagSol hflag
    rw [h]
    simp [inhFlagSrc, inhFlagSol]
  · have hall : ∀ p ∈ [inhQ], (validate_inheritance inhI p).2.2 = false := by
      intro p hp
      rw [List.mem_singleton] at hp
      subst hp
      rw [validate_inheritance_PQ_eval]
    obtain ⟨info, hinfo, heq⟩ :=
      inheritance_pass_amended.2.2.2 inhI [inhQ] none (by simp) hall
    have hlast : ([inhQ].getLast (by simp)) = inhQ := rfl
    rw [hlast, validate_inheritance_PQ_eval] at hinfo
    obtain rfl := Option.some.inj hinfo
    rw [heq]
    rfl

/-! ### C8: the relationship pass -/

/-- Entity "U". -/
def relEnt1 : Entity := ⟨['r', '1'], ['U'], false, [], []⟩

/-- Entity "V". -/
def relEnt2 : Entity := ⟨['r', '2'], ['V'], false, [], []⟩

/-- Source relationship "R" over ("U","V"): both cardinalities and both
dependency flags differ from `relSol`. -/
def relSrc : Relationship :=
  ⟨['w', '1'], ['R'], true, false, relEnt1, relEnt2, ['0', ',', '1'], ['1', ',', '1']⟩

/-- See `relSrc`. -/
def relSol : Relationship :=
  ⟨['w', '2'], ['R'], false, true, relEnt1, relEnt2, ['1', ',', 'n'], ['0', ',', 'n']⟩

/-- C8: relationship correspondence holds exactly when the entity1, entity2
and relationship name similarities are all strictly above the threshold,
compared role-to-role; on a match the pass emits one cardinality-mismatch
diagnostic when either directional cardinality differs (a single diagnostic
even when both differ) and then one dependency-mismatch diagnostic when
either dependency flag differs — nothing else. -/
theorem relationship_pass_contract :
    (∀ s p : Relationship,
      validate_relationship_entities s p = true ↔
        (name_match_threshold < similarity_score (upper s.entity1.name) (upper p.entity1.name)
          ∧ name_match_threshold < similarity_score (upper s.entity2.name) (upper p.entity2.name)
          ∧ name_match_threshold < similarity_score (upper s.name) (upper p.name)))
    ∧ (∀ s p : Relationship, validate_relationship_entities s p = true →
        validate_relationships_core [s] [p] =
          (if s.cardinality_1to2 ≠ p.cardinality_1to2 ∨ s.cardinality_2to1 ≠ p.cardinality_2to1
            then [Diag.relCardinalityMismatch s.id s.name] else [])
          ++ (if s.is_dependent_e1 ≠ p.is_dependent_e1 ∨ s.is_dependent_e2 ≠ p.is_dependent_e2
            then [Diag.relDependentMismatch s.id s.name] else [])) := by
  constructor
  · intro s p
    simp only [validate_relationship_entities, compare_word_single_snd,
      Bool.and_eq_true, decide_eq_true_eq, and_assoc]
  · intro s p h
    simp [validate_relationships_core, relScan, h]

/-- Witness for C8: a corresponding concrete pair in which both directional
cardinalities and both dependency flags differ yields exactly the two
diagnostics, one per category. -/
theorem relationship_pass_contract_witness :
    validate_relationship_entities relSrc relSol = true
    ∧ validate_relationships_core [relSrc] [relSol]
        = [Diag.relCardinalityMismatch ['w', '1'] ['R'],
           Diag.relDependentMismatch ['w', '1'] ['R']] := by
  have hc : validate_relationship_entities relSrc relSol = true := by
    rw [relationship_pass_contract.1 relSrc relSol]
    refine ⟨?_, ?_, ?_⟩
    · show name_match_threshold < similarity_score (upper ['U']) (upper ['U'])
      rw [similarity_score_self]
      norm_num [name_match_threshold]
    · show name_match_threshold < similarity_score (upper ['V']) (upper ['V'])
      rw [similarity_score_self]
      norm_num [name_match_threshold]
    · show name_match_threshold < similarity_score (upper ['R']) (upper ['R'])
      rw [similarity_score_self]
      norm_num [name_match_threshold]
  refine ⟨hc, ?_⟩
  have h2 := relationship_pass_contract.2 relSrc relSol hc
  rw [h2]
  decide

/-! ### C10: the identifier pass stops after a primary-flag mismatch -/

/-- C10: inside a matched entity pair, when a source identifier matches a
pool identifier whose `is_primary` differs, the pass emits that single
mismatch diagnostic and `break`s: the result does not depend on the
remaining source identifiers (they are neither matched nor reported), and
every pool identifier other than the claimed one is then reported as
unmatched. -/
theorem identifier_primary_mismatch_stops_pass
    (tid : Str) (tname : Option Str) (s m : Identifier) (rest pool : List Identifier)
    (hmatch : validate_identifier_attributes s pool = .ok ([], some m, true))
    (hprim : m.is_primary ≠ s.is_primary) :
    validate_identifiers_core tid tname (s :: rest) pool =
      .ok ([Diag.identifierPrimaryMismatch tid tname s.id s.name]
        ++ (pool.erase m).map (fun i => Diag.unmatchedIdentifier tid tname i.name)) := by
  simp only [validate_identifiers_core]
  rw [hmatch]
  simp [except_bind_ok, hprim]

/-- Pool identifier for the C10 witness: attributes {"a"}, not primary. -/
def witIdentM : Identifier := ⟨['w', 'm'], ['W', 'M'], [identAttrA], false⟩

/-- Source identifier for the C10 witness: attributes {"a"}, primary. -/
def witIdentS : Identifier := ⟨['w', 's'], ['W', 'S'], [identAttrA], true⟩

/-- Witness for C10: with a second source identifier still pending, the
pass output contains only the primary-mismatch diagnostic (the pool's only
identifier was claimed, so no unmatched report follows, and the pending
source identifier is never processed). -/
theorem identifier_primary_mismatch_stops_pass_witness :
    validate_identifiers_core ['t'] none (witIdentS :: [srcIdent]) [witIdentM]
      = .ok [Diag.identifierPrimaryMismatch ['t'] none ['w', 's'] ['W', 'S']] := by
  have haa := compare_word_self_single ['a']
  have hmatch : validate_identifier_attributes witIdentS [witIdentM]
      = .ok ([], some witIdentM, true) := by
    norm_num [validate_identifier_attributes, viatPhase1, viatPhase2, witIdentS, witIdentM,
      identAttrA, haa, name_match_threshold, except_bind_ok]
  have h := identifier_primary_mismatch_stops_pass ['t'] none witIdentS witIdentM
    [srcIdent] [witIdentM] hmatch (by decide)
  rw [h]
  rfl
